import Mathlib

/-!
Shallow embedding of the onnxruntime training core: the optimizer CUDA
kernels (optimizers.cc), the gradient operator schema builder
(gradient_op_schema.cc), the optimizer graph builder registry
(optimizer_graph_builder_registry.cc) and the newer Adam kernel constructor
(orttraining adam.h), together with theorems checking the natural-language
specification against these definitions.

Tensors are modelled as shape/data pairs over an abstract linear ordered
field K; the square-root function used by the numeric update kernels is
passed explicitly, so that structural properties hold for every sqrt and
the numeric scenario can instantiate K with the real numbers and
Real.sqrt.
-/

namespace ORT

/-- Element count of a tensor shape (TensorShape::Size), the product of the
dimensions. -/
def shapeSize (shape : List Nat) : Nat := shape.foldr (fun a b => a * b) 1

/-- A runtime tensor value as consumed by the optimizer kernels: a float
tensor carrying shape and data, an int64 scalar (the Adam step counter) or
a bool scalar (the do-update flag). Element values live in the field K. -/
inductive TValue (K : Type) where
  | flt (shape : List Nat) (data : List K)
  | i64 (v : Int)
  | b (v : Bool)
deriving DecidableEq

/-- Kernel execution context: positional input tensor list and the declared
output count (the parts of OpKernelContext the optimizer kernels read). -/
structure OpKernelContext (K : Type) where
  inputs : List (TValue K)
  outputCount : Nat
deriving DecidableEq

variable {K : Type} [LinearOrderedField K]

/-- ctx->Input<Tensor>(i) followed by a typed float data access: fails
unless slot i holds a float tensor. -/
def OpKernelContext.inputFlt (ctx : OpKernelContext K) (i : Nat) :
    Except String (List Nat × List K) :=
  match ctx.inputs[i]? with
  | some (.flt shape data) => .ok (shape, data)
  | _ => .error "missing or mistyped float tensor input"

/-- ctx->Input<Tensor>(i) followed by a typed int64 data access. -/
def OpKernelContext.inputI64 (ctx : OpKernelContext K) (i : Nat) :
    Except String Int :=
  match ctx.inputs[i]? with
  | some (.i64 v) => .ok v
  | _ => .error "missing or mistyped int64 tensor input"

/-- ctx->Input<Tensor>(i) followed by a typed bool data access. -/
def OpKernelContext.inputBool (ctx : OpKernelContext K) (i : Nat) :
    Except String Bool :=
  match ctx.inputs[i]? with
  | some (.b v) => .ok v
  | _ => .error "missing or mistyped bool tensor input"

/-- Modelled from the spec: the CUDA kernel SGDOptimizerImpl
(optimizers_impl.cu) is not under src, only its call site in
SGDOptimizer::ComputeInternal is; the spec defines the update as
W' = W - eta * G elementwise over the weight element count. -/
def SGDOptimizerImpl (eta : K) (w g : List K) (count : Nat) : List K :=
  (List.range count).map (fun i => w.getD i 0 - eta * g.getD i 0)

/-- Translation of SGDOptimizer::ComputeInternal (optimizers.cc lines
22-38): reads ETA, W, G at input slots 0, 1, 2, enforces that W and G have
equal shapes (ORT_ENFORCE, a kernel-execution-time check), and produces the
single output NW. -/
def SGDOptimizer.ComputeInternal (ctx : OpKernelContext K) :
    Except String (List (TValue K)) := do
  let (_, etaD) ← ctx.inputFlt 0
  let (wSh, wD) ← ctx.inputFlt 1
  let (gSh, gD) ← ctx.inputFlt 2
  if wSh = gSh then
    return [.flt wSh (SGDOptimizerImpl (etaD.headD 0) wD gD (shapeSize wSh))]
  else
    throw "SGDOptimizer: W and G shapes differ"

/-- Hyperparameters of the AdamOptimizer kernel in optimizers.cc (its class
header optimizers.h is not under src; the four scalar attributes are those
its ComputeInternal reads). -/
structure AdamKernel (K : Type) where
  alpha : K
  beta : K
  lambda : K
  epsilon : K

/-- Modelled from the spec: first-moment update of the missing CUDA kernel
AdamOptimizerImpl (optimizers_impl.cu is not under src); the spec gives
M1' = alpha * M1 + (1 - alpha) * G. -/
def adamM1Elem (alpha m1 g : K) : K := alpha * m1 + (1 - alpha) * g

/-- Modelled from the spec: second-moment update of the missing CUDA kernel
AdamOptimizerImpl; the spec gives M2' = beta * M2 + (1 - beta) * G * G. -/
def adamM2Elem (beta m2 g : K) : K := beta * m2 + (1 - beta) * g * g

/-- Modelled from the spec: weight update of the missing CUDA kernel
AdamOptimizerImpl, W' = W - eta * M1bc / (sqrt M2bc + epsilon), in the
bias-correction variant that scales the moments by 1 / (1 - alpha ^ t) and
1 / (1 - beta ^ t); the concrete scenario in the spec matches this variant.
The spec lists lambda (weight decay) among the kernel scalars but its
displayed update formula does not use it. -/
def adamWElem (sqrt : K → K) (eta : K) (t : Int) (w g m1 m2 alpha beta eps : K) : K :=
  w - eta * (adamM1Elem alpha m1 g / (1 - alpha ^ t)) /
    (sqrt (adamM2Elem beta m2 g / (1 - beta ^ t)) + eps)

/-- Translation of AdamOptimizer::ComputeInternal (optimizers.cc lines
84-151): inputs are ETA, S (step count), W, G, M1, M2 at slots 0-5, the
optional fp16 shadow weight at slot 6 (read when at least 7 inputs and 5
outputs are declared) and the optional do-update flag at slot 7 (read when
at least 8 inputs are declared). When the flag is present and false, every
output is a copy of the corresponding input and the update kernel is never
invoked; otherwise the outputs are the updated tensors and the step counter
is written as S + 1 (optimizers.cc line 148). Out-of-range data reads of
the device buffers are modelled as 0. -/
def AdamOptimizer.ComputeInternal (sqrt : K → K) (kern : AdamKernel K)
    (ctx : OpKernelContext K) : Except String (List (TValue K)) := do
  let (_, etaD) ← ctx.inputFlt 0
  let s ← ctx.inputI64 1
  let (wSh, wD) ← ctx.inputFlt 2
  let (_gSh, gD) ← ctx.inputFlt 3
  let (m1Sh, m1D) ← ctx.inputFlt 4
  let (m2Sh, m2D) ← ctx.inputFlt 5
  let fp16 : Option (List Nat × List K) ←
    if 7 ≤ ctx.inputs.length ∧ 5 ≤ ctx.outputCount then do
      let t ← ctx.inputFlt 6
      pure (some t)
    else
      pure none
  if 8 ≤ ctx.inputs.length then
    let doUpdate ← ctx.inputBool 7
    if doUpdate = false then
      return [.flt wSh wD, .flt m1Sh m1D, .flt m2Sh m2D, .i64 s] ++
        (match fp16 with
         | some (sh16, d16) => [.flt sh16 d16]
         | none => [])
  let eta := etaD.headD 0
  let count := shapeSize wSh
  let nw := (List.range count).map (fun i =>
    adamWElem sqrt eta s (wD.getD i 0) (gD.getD i 0) (m1D.getD i 0)
      (m2D.getD i 0) kern.alpha kern.beta kern.epsilon)
  let nm1 := (List.range count).map (fun i =>
    adamM1Elem kern.alpha (m1D.getD i 0) (gD.getD i 0))
  let nm2 := (List.range count).map (fun i =>
    adamM2Elem kern.beta (m2D.getD i 0) (gD.getD i 0))
  return [.flt wSh nw, .flt m1Sh nm1, .flt m2Sh nm2, .i64 (s + 1)] ++
    (match fp16 with
     | some (sh16, _) => [.flt sh16 nw]
     | none => [])

/-- Hyperparameters of the LambOptimizer kernel in optimizers.cc (its class
header is not under src; the five scalar attributes are those its
ComputeInternal reads). -/
structure LambKernel (K : Type) where
  alpha : K
  beta : K
  lambda : K
  epsilon : K
  threshold : K

/-- Modelled from the spec: L2 norm of a device buffer prefix, as computed
by the missing reduction kernel reduce_l2_norm. -/
def reduceL2Norm (sqrt : K → K) (xs : List K) (count : Nat) : K :=
  sqrt (((List.range count).map (fun i => xs.getD i 0 * xs.getD i 0)).foldr
    (fun a b => a + b) 0)

/-- Modelled from the spec: the per-element Lamb update direction computed
by the missing kernel LambComputeDirectionImpl,
r = M1' / (sqrt M2' + epsilon) + lambda * W. -/
def lambDirectionElem (sqrt : K → K) (w g m1 m2 alpha beta lambda eps : K) : K :=
  adamM1Elem alpha m1 g / (sqrt (adamM2Elem beta m2 g) + eps) + lambda * w

/-- Translation of LambOptimizer::ComputeInternal (optimizers.cc lines
182-298): inputs are ETA, W, G, M1, M2 at slots 0-4, the optional fp16
shadow weight at slot 5 (read when at least 6 inputs and 4 outputs are
declared) and the optional do-update flag at slot 6 (read when at least 7
inputs are declared). The weight shape is enforced equal to the gradient
and both moment shapes before anything else; when the do-update flag is
present and false every output is a copy of the corresponding input.
Otherwise the update direction, the two L2 norms and the new weights are
computed; the missing CUDA kernels are modelled from the spec formula
W' = W - eta * (normW / normR) * r with the norm ratio clipped to the
threshold attribute. -/
def LambOptimizer.ComputeInternal (sqrt : K → K) (kern : LambKernel K)
    (ctx : OpKernelContext K) : Except String (List (TValue K)) := do
  let (_, etaD) ← ctx.inputFlt 0
  let (wSh, wD) ← ctx.inputFlt 1
  let (gSh, gD) ← ctx.inputFlt 2
  let (m1Sh, m1D) ← ctx.inputFlt 3
  let (m2Sh, m2D) ← ctx.inputFlt 4
  if wSh ≠ gSh then throw "LambOptimizer: W and G shapes differ"
  if wSh ≠ m1Sh then throw "LambOptimizer: W and M1 shapes differ"
  if wSh ≠ m2Sh then throw "LambOptimizer: W and M2 shapes differ"
  let fp16 : Option (List Nat × List K) ←
    if 6 ≤ ctx.inputs.length ∧ 4 ≤ ctx.outputCount then do
      let t ← ctx.inputFlt 5
      pure (some t)
    else
      pure none
  if 7 ≤ ctx.inputs.length then
    let doUpdate ← ctx.inputBool 6
    if doUpdate = false then
      return [.flt wSh wD, .flt wSh m1D, .flt wSh m2D] ++
        (match fp16 with
         | some (sh16, d16) => [.flt sh16 d16]
         | none => [])
  let count := shapeSize wSh
  if ¬ ((count : Int) < 2147483647) then
    throw "LambOptimizer: tensor too large for int indexing"
  let eta := etaD.headD 0
  let r := (List.range count).map (fun i =>
    lambDirectionElem sqrt (wD.getD i 0) (gD.getD i 0) (m1D.getD i 0)
      (m2D.getD i 0) kern.alpha kern.beta kern.lambda kern.epsilon)
  let nm1 := (List.range count).map (fun i =>
    adamM1Elem kern.alpha (m1D.getD i 0) (gD.getD i 0))
  let nm2 := (List.range count).map (fun i =>
    adamM2Elem kern.beta (m2D.getD i 0) (gD.getD i 0))
  let wNorm := reduceL2Norm sqrt wD count
  let rNorm := reduceL2Norm sqrt r count
  let ratio := min (wNorm / rNorm) kern.threshold
  let nw := (List.range count).map (fun i =>
    wD.getD i 0 - eta * ratio * r.getD i 0)
  return [.flt wSh nw, .flt wSh nm1, .flt wSh nm2] ++
    (match fp16 with
     | some (sh16, _) => [.flt sh16 nw]
     | none => [])

/-- Run-wide optimizer graph configuration; the struct definition is in a
header not under src, so only the two fields that GetNameFromConfig reads
are modelled, as described by the spec data model: total worker count and
the ZeRO optimizer-state partitioning flag. -/
structure OptimizerGraphConfig where
  world_size : Int
  partition_optimizer : Bool

/-- Translation of OptimizerGraphBuilderRegistry::GetNameFromConfig
(optimizer_graph_builder_registry.cc lines 21-31). -/
def OptimizerGraphBuilderRegistry.GetNameFromConfig
    (config : OptimizerGraphConfig) : String :=
  if config.world_size > 1 then
    if config.partition_optimizer then "ZeRO" else "Allreduce"
  else
    "Default"

/-- Formal parameter option of an ONNX schema slot. -/
inductive ParameterOption where
  | Single
  | Optional
  | Variadic
deriving DecidableEq, Inhabited

/-- An ONNX type constraint parameter: constraint name, allowed type
strings, description. -/
structure TypeConstraintParam where
  type_param_str : String
  allowed_type_strs : List String
  description : String
deriving DecidableEq, Inhabited

/-- An ONNX schema formal input or output slot. -/
structure FormalParameter where
  name : String
  description : String
  type_str : String
  param_option : ParameterOption
  is_homogeneous : Bool
deriving DecidableEq, Inhabited

/-- One declared attribute schema; only the name is relevant to the
gradient schema builder, which copies attribute schemas wholesale. -/
structure AttrSchema where
  name : String
deriving DecidableEq, Inhabited

/-- The parts of ONNX_NAMESPACE::OpSchema used by GradOpSchema: name, type
constraints, input/output slots, attribute schemas, and the allowed
input/output count sets installed by the set-valued NumInputs/NumOutputs. -/
structure OpSchema where
  name : String
  typeConstraintParams : List TypeConstraintParam
  inputs : List FormalParameter
  outputs : List FormalParameter
  attributes : List AttrSchema
  numInputsAllowed : Option (List Int)
  numOutputsAllowed : Option (List Int)
deriving DecidableEq, Inhabited

/-- The fixed list OpSchema::all_tensor_types() of the ONNX library (which
is outside this repository): every tensor element type name. -/
def allTensorTypes : List String :=
  ["tensor(uint8)", "tensor(uint16)", "tensor(uint32)", "tensor(uint64)",
   "tensor(int8)", "tensor(int16)", "tensor(int32)", "tensor(int64)",
   "tensor(float16)", "tensor(float)", "tensor(double)", "tensor(string)",
   "tensor(bool)", "tensor(complex64)", "tensor(complex128)"]

/-- OpSchema::TypeConstraint: records one more type constraint parameter. -/
def OpSchema.TypeConstraint (s : OpSchema) (type_str : String)
    (constraints : List String) (description : String) : OpSchema :=
  { s with typeConstraintParams :=
      s.typeConstraintParams ++ [⟨type_str, constraints, description⟩] }

/-- Write position n of a slot list, resizing with default-initialized
slots when n is beyond the current size, as ONNX OpSchema::Input and
OpSchema::Output do. -/
def listSetPad (xs : List FormalParameter) (n : Nat) (p : FormalParameter) :
    List FormalParameter :=
  (xs ++ List.replicate (n + 1 - xs.length) default).set n p

/-- ONNX OpSchema::Input: stores a formal parameter at input position n. -/
def OpSchema.SetInput (s : OpSchema) (n : Nat) (p : FormalParameter) : OpSchema :=
  { s with inputs := listSetPad s.inputs n p }

/-- ONNX OpSchema::Output: stores a formal parameter at output position n. -/
def OpSchema.SetOutput (s : OpSchema) (n : Nat) (p : FormalParameter) : OpSchema :=
  { s with outputs := listSetPad s.outputs n p }

/-- Builder state of GradOpSchema (gradient_op_schema.h/.cc): the wrapped
op schema plus the builder-local arity bounds and variadic flags. -/
structure GradOpSchema where
  op_schema : OpSchema
  min_input : Int
  max_input : Int
  min_output : Int
  max_output : Int
  variadic_input : Bool
  variadic_output : Bool
deriving DecidableEq, Inhabited

/-- GradOpSchema::NumInputs(min, max) (gradient_op_schema.cc lines 23-27):
sets the builder arity bounds. -/
def GradOpSchema.NumInputsMinMax (g : GradOpSchema) (mn mx : Int) : GradOpSchema :=
  { g with min_input := mn, max_input := mx }

/-- GradOpSchema::NumInputs(n) (lines 29-31). -/
def GradOpSchema.NumInputsN (g : GradOpSchema) (n : Int) : GradOpSchema :=
  g.NumInputsMinMax n n

/-- GradOpSchema::NumInputs(set) (lines 33-36): forwards the allowed-count
set to the underlying op schema input-count constraint. -/
def GradOpSchema.NumInputsSet (g : GradOpSchema) (s : List Int) : GradOpSchema :=
  { g with op_schema := { g.op_schema with numInputsAllowed := some s } }

/-- GradOpSchema::NumOutputs(min, max) (lines 38-42): sets the builder
output arity bounds. -/
def GradOpSchema.NumOutputsMinMax (g : GradOpSchema) (mn mx : Int) : GradOpSchema :=
  { g with min_output := mn, max_output := mx }

/-- GradOpSchema::NumOutputs(n) (lines 44-46). -/
def GradOpSchema.NumOutputsN (g : GradOpSchema) (n : Int) : GradOpSchema :=
  g.NumOutputsMinMax n n

/-- GradOpSchema::NumOutputs(set) (lines 48-51). The source body is
op_schema_->NumInputs(num_outputs_allowed): the set lands in the underlying
schema INPUT count constraint. -/
def GradOpSchema.NumOutputsSet (g : GradOpSchema) (s : List Int) : GradOpSchema :=
  { g with op_schema := { g.op_schema with numInputsAllowed := some s } }

/-- GradOpSchema::Input (lines 53-65): ORT_ENFORCE that n is at least the
number of already stored input slots, then store the slot. -/
def GradOpSchema.Input (g : GradOpSchema) (n : Int) (name description type_str : String)
    (param_option : ParameterOption) (is_homogeneous : Bool) :
    Except String GradOpSchema :=
  if (g.op_schema.inputs.length : Int) ≤ n then
    .ok { g with op_schema := (g.op_schema.SetInput n.toNat
            ⟨name, description, type_str, param_option, is_homogeneous⟩) }
  else
    .error "Invalid redefinition of input"

/-- GradOpSchema::Output (lines 67-78). -/
def GradOpSchema.Output (g : GradOpSchema) (n : Int) (name description type_str : String)
    (param_option : ParameterOption) (is_homogeneous : Bool) :
    Except String GradOpSchema :=
  if (g.op_schema.outputs.length : Int) ≤ n then
    .ok { g with op_schema := (g.op_schema.SetOutput n.toNat
            ⟨name, description, type_str, param_option, is_homogeneous⟩) }
  else
    .error "Invalid redefinition of output"

/-- GradOpSchema::GetParameterType (lines 107-113): the slot at index
max - 1 is Variadic when the variadic flag is set; every other slot is
Optional. -/
def GradOpSchema.GetParameterType (arg_index mx : Int) (variadic : Bool) :
    ParameterOption :=
  if arg_index = mx - 1 ∧ variadic then .Variadic else .Optional

/-- GradOpSchema::CopyAttributes (lines 169-179): appends every attribute
schema of the base op, when one is given, to the gradient schema. -/
def CopyAttributes (base_op : Option OpSchema) (grad : OpSchema) : OpSchema :=
  match base_op with
  | some b => { grad with attributes := grad.attributes ++ b.attributes }
  | none => grad

/-- GradOpSchema::GenGradientSchema (lines 123-167): pick the type
constraint (the base op constraint when the base exists and has exactly one
constraint parameter, otherwise V over all tensor types), enforce that no
input slots were declared yet, declare generic inputs grad_input_arg{i} for
i below the builder max input arity, do the same for outputs, then copy the
base op attributes. -/
def GradOpSchema.GenGradientSchema (g : GradOpSchema) (base_op : Option OpSchema)
    (grad : OpSchema) : Except String OpSchema :=
  let grad :=
    match base_op with
    | some b =>
      if b.typeConstraintParams.length = 1 then
        let tc := b.typeConstraintParams.getD 0 default
        grad.TypeConstraint tc.type_param_str tc.allowed_type_strs tc.description
      else
        grad.TypeConstraint "V" allTensorTypes "All Tensor types"
    | none => grad.TypeConstraint "V" allTensorTypes "All Tensor types"
  if grad.inputs.isEmpty = false then
    .error "Inputs must be empty before referencing base op"
  else
    let type_str := (grad.typeConstraintParams.getD 0 default).type_param_str
    let grad := (List.range g.max_input.toNat).foldl (fun s i =>
      s.SetInput i ⟨"grad_input_arg" ++ toString i, "", type_str,
        GradOpSchema.GetParameterType (i : Int) g.max_input g.variadic_input, true⟩) grad
    if grad.outputs.isEmpty = false then
      .error "Outputs must be empty before referencing base op"
    else
      let grad := (List.range g.max_output.toNat).foldl (fun s i =>
        s.SetOutput i ⟨"grad_output_arg" ++ toString i, "", type_str,
          GradOpSchema.GetParameterType (i : Int) g.max_output g.variadic_output, true⟩) grad
      .ok (CopyAttributes base_op grad)

/-- An attribute value as stored in a node proto: float or int. -/
inductive AttrValue where
  | f (v : Rat)
  | i (v : Int)
deriving DecidableEq

/-- The attribute lookup interface of OpKernelInfo used by the orttraining
Adam kernel constructor. -/
structure OpKernelInfo where
  attrs : List (String × AttrValue)
deriving DecidableEq

/-- OpKernelInfo::GetAttr for a float attribute: the value when the
attribute is present with float type, otherwise failure. -/
def OpKernelInfo.GetAttrFloat (info : OpKernelInfo) (name : String) : Option Rat :=
  match info.attrs.lookup name with
  | some (.f v) => some v
  | _ => none

/-- OpKernelInfo::GetAttr for an int64 attribute. -/
def OpKernelInfo.GetAttrInt (info : OpKernelInfo) (name : String) : Option Int :=
  match info.attrs.lookup name with
  | some (.i v) => some v
  | _ => none

/-- OpKernelInfo::GetAttrOrDefault for a float attribute: the stored value
when present with the right type, the supplied default otherwise. -/
def OpKernelInfo.GetAttrOrDefault (info : OpKernelInfo) (name : String)
    (dft : Rat) : Rat :=
  (info.GetAttrFloat name).getD dft

/-- State of the orttraining AdamOptimizer kernel
(orttraining/training_ops/cuda/optimizer/adam.h lines 35-53). -/
structure AdamOptimizerH where
  alpha : Rat
  beta : Rat
  lambda : Rat
  epsilon : Rat
  do_bias_correction : Int
deriving DecidableEq

/-- Translation of the AdamOptimizer constructor in adam.h lines 37-43:
alpha, beta, lambda, epsilon are read with defaults 0.9, 0.999, 0.0, 1e-8;
do_bias_correction is read with ORT_ENFORCE, so a missing or
wrongly-typed value makes construction fail. -/
def AdamOptimizerH.construct (info : OpKernelInfo) : Except String AdamOptimizerH :=
  match info.GetAttrInt "do_bias_correction" with
  | some v => .ok
      { alpha := info.GetAttrOrDefault "alpha" 0.9
        beta := info.GetAttrOrDefault "beta" 0.999
        lambda := info.GetAttrOrDefault "lambda" 0.0
        epsilon := info.GetAttrOrDefault "epsilon" 1e-8
        do_bias_correction := v }
  | none => .error "Missing/Invalid do_bias_correction"

/-- Semantic role of a positional input or output slot of an optimizer
kernel, named after the spec numeric kernel boundary contract. -/
inductive OptSlot where
  | learning_rate
  | step_count
  | weights
  | gradient
  | moment_1
  | moment_2
  | loss_scale
  | fp16_shadow_weight
  | do_update_flag
  | updated_weights
  | updated_moment_1
  | updated_moment_2
  | updated_step_count
  | updated_fp16_shadow_weight
deriving DecidableEq

/-- The positional input order stated by the spec boundary contract. -/
def specInputOrder : List OptSlot :=
  [.learning_rate, .step_count, .weights, .gradient, .moment_1, .moment_2,
   .loss_scale, .fp16_shadow_weight, .do_update_flag]

/-- The positional output order stated by the spec boundary contract. -/
def specOutputOrder : List OptSlot :=
  [.updated_weights, .updated_moment_1, .updated_moment_2,
   .updated_step_count, .updated_fp16_shadow_weight]

/-- Input slot i of AdamOptimizer::ComputeInternal reads the tensor listed
at position i here (optimizers.cc lines 90-113). -/
def adamInputSlots : List OptSlot :=
  [.learning_rate, .step_count, .weights, .gradient, .moment_1, .moment_2,
   .fp16_shadow_weight, .do_update_flag]

/-- Output slot i of AdamOptimizer::ComputeInternal writes the tensor
listed at position i here (optimizers.cc lines 97-107). -/
def adamOutputSlots : List OptSlot :=
  [.updated_weights, .updated_moment_1, .updated_moment_2,
   .updated_step_count, .updated_fp16_shadow_weight]

/-- Input slot i of LambOptimizer::ComputeInternal reads the tensor listed
at position i here (optimizers.cc lines 190-217). -/
def lambInputSlots : List OptSlot :=
  [.learning_rate, .weights, .gradient, .moment_1, .moment_2,
   .fp16_shadow_weight, .do_update_flag]

/-- Output slot i of LambOptimizer::ComputeInternal writes the tensor
listed at position i here (optimizers.cc lines 204-212). -/
def lambOutputSlots : List OptSlot :=
  [.updated_weights, .updated_moment_1, .updated_moment_2,
   .updated_fp16_shadow_weight]

/-- Input slot i of SGDOptimizer::ComputeInternal reads the tensor listed
at position i here (optimizers.cc lines 22-26). -/
def sgdInputSlots : List OptSlot :=
  [.learning_rate, .weights, .gradient]

/-- Output slots of SGDOptimizer::ComputeInternal. -/
def sgdOutputSlots : List OptSlot :=
  [.updated_weights]

/-- A fresh gradient schema builder wrapping an empty op schema, used to
instantiate concrete scenarios. -/
def emptyGradOpSchema : GradOpSchema :=
  ⟨⟨"TestGrad", [], [], [], [], none, none⟩, 0, 0, 0, 0, false, false⟩

/-- A builder that has one declared input slot and one declared output
slot. -/
def oneSlotGradOpSchema : GradOpSchema :=
  { emptyGradOpSchema with op_schema := { emptyGradOpSchema.op_schema with
      inputs := [⟨"grad_input_arg0", "", "T", .Optional, true⟩],
      outputs := [⟨"grad_output_arg0", "", "T", .Optional, true⟩] } }

theorem exceptBind_ok {α β : Type} (a : α) (f : α → Except String β) :
    (Except.ok a >>= f) = f a := rfl

theorem exceptBind_error {α β : Type} (e : String) (f : α → Except String β) :
    ((Except.error e : Except String α) >>= f) = .error e := rfl

/-- C2: the optimizer-graph-builder name is a pure function of the
configuration: Default when world_size equals 1, Allreduce when world_size
exceeds 1 with optimizer-state partitioning disabled, ZeRO when world_size
exceeds 1 with partitioning enabled. -/
theorem C2_builder_name_selection (c : OptimizerGraphConfig) :
    (c.world_size = 1 →
      OptimizerGraphBuilderRegistry.GetNameFromConfig c = "Default") ∧
    (1 < c.world_size → c.partition_optimizer = false →
      OptimizerGraphBuilderRegistry.GetNameFromConfig c = "Allreduce") ∧
    (1 < c.world_size → c.partition_optimizer = true →
      OptimizerGraphBuilderRegistry.GetNameFromConfig c = "ZeRO") := by
  unfold OptimizerGraphBuilderRegistry.GetNameFromConfig
  refine ⟨fun h1 => ?_, fun h1 h2 => ?_, fun h1 h2 => ?_⟩
  · simp [h1]
  · simp [h1, h2]
  · simp [h1, h2]

/-- Witness for C2 at the three concrete configurations. -/
theorem C2_builder_name_selection_witness :
    OptimizerGraphBuilderRegistry.GetNameFromConfig ⟨1, false⟩ = "Default" ∧
    OptimizerGraphBuilderRegistry.GetNameFromConfig ⟨2, false⟩ = "Allreduce" ∧
    OptimizerGraphBuilderRegistry.GetNameFromConfig ⟨2, true⟩ = "ZeRO" :=
  ⟨(C2_builder_name_selection ⟨1, false⟩).1 rfl,
   (C2_builder_name_selection ⟨2, false⟩).2.1 (by decide) rfl,
   (C2_builder_name_selection ⟨2, true⟩).2.2 (by decide) rfl⟩

/-- C4: every optimizer kernel in optimizers.cc reads its positional inputs
and writes its positional outputs in an order that conforms to the spec
boundary contract: each kernel slot sequence is a subsequence of the
contract order (so optional slots may be absent but never permuted), and
the mandatory learning-rate, weights, gradient and updated-weights slots
are present. -/
theorem C4_positional_contract :
    (adamInputSlots.Sublist specInputOrder ∧
     adamOutputSlots.Sublist specOutputOrder ∧
     lambInputSlots.Sublist specInputOrder ∧
     lambOutputSlots.Sublist specOutputOrder ∧
     sgdInputSlots.Sublist specInputOrder ∧
     sgdOutputSlots.Sublist specOutputOrder) ∧
    (OptSlot.learning_rate ∈ adamInputSlots ∧ OptSlot.weights ∈ adamInputSlots ∧
     OptSlot.gradient ∈ adamInputSlots ∧ OptSlot.updated_weights ∈ adamOutputSlots ∧
     OptSlot.learning_rate ∈ lambInputSlots ∧ OptSlot.weights ∈ lambInputSlots ∧
     OptSlot.gradient ∈ lambInputSlots ∧ OptSlot.updated_weights ∈ lambOutputSlots ∧
     OptSlot.learning_rate ∈ sgdInputSlots ∧ OptSlot.weights ∈ sgdInputSlots ∧
     OptSlot.gradient ∈ sgdInputSlots ∧ OptSlot.updated_weights ∈ sgdOutputSlots) := by
  decide

/-- C9: the set-valued GradOpSchema::NumOutputs installs its argument as
the underlying schema INPUT-count constraint, leaving the output-count
constraint and the builder output arity bounds unchanged, while the
two-integer and one-integer overloads set the builder output arity
bounds. -/
theorem C9_numOutputs_set_sets_input_constraint (g : GradOpSchema)
    (s : List Int) (mn mx n : Int) :
    (g.NumOutputsSet s).op_schema.numInputsAllowed = some s ∧
    (g.NumOutputsSet s).op_schema.numOutputsAllowed = g.op_schema.numOutputsAllowed ∧
    (g.NumOutputsSet s).min_output = g.min_output ∧
    (g.NumOutputsSet s).max_output = g.max_output ∧
    (g.NumOutputsMinMax mn mx).min_output = mn ∧
    (g.NumOutputsMinMax mn mx).max_output = mx ∧
    (g.NumOutputsMinMax mn mx).op_schema = g.op_schema ∧
    g.NumOutputsN n = g.NumOutputsMinMax n n :=
  ⟨rfl, rfl, rfl, rfl, rfl, rfl, rfl, rfl⟩

/-- C10: the orttraining Adam kernel constructor succeeds with defaults
alpha = 0.9, beta = 0.999, lambda = 0, epsilon = 1e-8 when those attributes
are omitted, and fails when do_bias_correction is missing or has the wrong
type. -/
theorem C10_adam_ctor_defaults (info : OpKernelInfo) :
    (info.GetAttrInt "do_bias_correction" = none →
      AdamOptimizerH.construct info = .error "Missing/Invalid do_bias_correction") ∧
    (∀ v, info.GetAttrInt "do_bias_correction" = some v →
      ∃ k, AdamOptimizerH.construct info = .ok k ∧
        k.do_bias_correction = v ∧
        (info.GetAttrFloat "alpha" = none → k.alpha = 0.9) ∧
        (info.GetAttrFloat "beta" = none → k.beta = 0.999) ∧
        (info.GetAttrFloat "lambda" = none → k.lambda = 0) ∧
        (info.GetAttrFloat "epsilon" = none → k.epsilon = 1e-8)) := by
  constructor
  · intro h
    unfold AdamOptimizerH.construct
    rw [h]
  · intro v h
    refine ⟨⟨info.GetAttrOrDefault "alpha" 0.9, info.GetAttrOrDefault "beta" 0.999,
      info.GetAttrOrDefault "lambda" 0.0, info.GetAttrOrDefault "epsilon" 1e-8, v⟩,
      ?_, rfl, ?_, ?_, ?_, ?_⟩
    · unfold AdamOptimizerH.construct
      rw [h]
    all_goals intro hnone
    all_goals simp only [OpKernelInfo.GetAttrOrDefault, hnone, Option.getD_none]
    all_goals norm_num

/-- Witness for C10: a node carrying only do_bias_correction constructs
with all defaults, and a node with no attributes fails. -/
theorem C10_adam_ctor_defaults_witness :
    (AdamOptimizerH.construct ⟨[]⟩ = .error "Missing/Invalid do_bias_correction") ∧
    ∃ k, AdamOptimizerH.construct ⟨[("do_bias_correction", AttrValue.i 1)]⟩ = .ok k ∧
      k.do_bias_correction = 1 ∧ k.alpha = 0.9 ∧ k.beta = 0.999 ∧
      k.lambda = 0 ∧ k.epsilon = 1e-8 := by
  constructor
  · exact (C10_adam_ctor_defaults ⟨[]⟩).1 rfl
  · obtain ⟨k, hk, hv, ha, hb, hl, he⟩ :=
      (C10_adam_ctor_defaults ⟨[("do_bias_correction", AttrValue.i 1)]⟩).2 1 (by rfl)
    exact ⟨k, hk, hv, ha rfl, hb rfl, hl rfl, he rfl⟩

/-- C7 counterexample: declaring input slot 2 on a builder with no declared
input slots skips indices 0 and 1, a gap; the declaration is accepted, and
the two skipped positions are filled with default-initialized slots, so
gapped declarations are not rejected as the claim states. -/
theorem C7_gap_declaration_accepted :
    emptyGradOpSchema.Input 2 "grad_input_arg2" "" "T" .Optional true =
      .ok { emptyGradOpSchema with
            op_schema := { emptyGradOpSchema.op_schema with
              inputs := [default, default,
                ⟨"grad_input_arg2", "", "T", .Optional, true⟩] } } := by
  rfl

/-- C7 amended: a slot declaration is rejected exactly when its index is
lower than the number of already-declared slots (redefinition or
out-of-order declaration); any index at or above the count is accepted,
including indices that leave default-filled gaps. -/
theorem C7_slot_declaration_order (g : GradOpSchema) (n : Int)
    (nm ds ts : String) (p : ParameterOption) (homog : Bool) :
    (n < (g.op_schema.inputs.length : Int) →
      g.Input n nm ds ts p homog = .error "Invalid redefinition of input") ∧
    ((g.op_schema.inputs.length : Int) ≤ n →
      g.Input n nm ds ts p homog =
        .ok { g with op_schema := (g.op_schema.SetInput n.toNat ⟨nm, ds, ts, p, homog⟩) }) ∧
    (n < (g.op_schema.outputs.length : Int) →
      g.Output n nm ds ts p homog = .error "Invalid redefinition of output") ∧
    ((g.op_schema.outputs.length : Int) ≤ n →
      g.Output n nm ds ts p homog =
        .ok { g with op_schema := (g.op_schema.SetOutput n.toNat ⟨nm, ds, ts, p, homog⟩) }) := by
  unfold GradOpSchema.Input GradOpSchema.Output
  refine ⟨fun hlt => ?_, fun hle => ?_, fun hlt => ?_, fun hle => ?_⟩
  · rw [if_neg (by omega)]
  · rw [if_pos hle]
  · rw [if_neg (by omega)]
  · rw [if_pos hle]

/-- Witness for C7 amended on a builder with one declared input and output:
index 0 is rejected as a redefinition, index 1 is accepted. -/
theorem C7_slot_declaration_order_witness :
    (oneSlotGradOpSchema.Input 0 "x" "" "T" .Optional true =
      .error "Invalid redefinition of input") ∧
    (oneSlotGradOpSchema.Input 1 "x" "" "T" .Optional true =
      .ok { oneSlotGradOpSchema with op_schema :=
        (oneSlotGradOpSchema.op_schema.SetInput 1 ⟨"x", "", "T", .Optional, true⟩) }) ∧
    (oneSlotGradOpSchema.Output 0 "y" "" "T" .Optional true =
      .error "Invalid redefinition of output") ∧
    (oneSlotGradOpSchema.Output 1 "y" "" "T" .Optional true =
      .ok { oneSlotGradOpSchema with op_schema :=
        (oneSlotGradOpSchema.op_schema.SetOutput 1 ⟨"y", "", "T", .Optional, true⟩) }) :=
  ⟨(C7_slot_declaration_order oneSlotGradOpSchema 0 "x" "" "T" .Optional true).1 (by decide),
   (C7_slot_declaration_order oneSlotGradOpSchema 1 "x" "" "T" .Optional true).2.1 (by decide),
   (C7_slot_declaration_order oneSlotGradOpSchema 0 "y" "" "T" .Optional true).2.2.1 (by decide),
   (C7_slot_declaration_order oneSlotGradOpSchema 1 "y" "" "T" .Optional true).2.2.2 (by decide)⟩

theorem exceptPure {α : Type} (a : α) : (pure a : Except String α) = .ok a := rfl

theorem exceptThrow {α : Type} (e : String) :
    (throw e : Except String α) = .error e := rfl

/-- C1: skip-update semantics. When the optional do-update flag input of an
Adam or Lamb optimizer node is present and false, every declared output is
exactly the corresponding input: weights, both moments, the Adam step
counter and, when the fp16 shadow weight is present, the shadow weight; the
result holds for every square-root function because the update kernel is
never reached. -/
theorem C1_skip_update_identity (sqrt : K → K) (ak : AdamKernel K) (lk : LambKernel K)
    (etaSh wSh gSh m1Sh m2Sh f16Sh : List Nat)
    (etaD wD gD m1D m2D f16D : List K) (s : Int) (oc oc2 : Nat) :
    (AdamOptimizer.ComputeInternal sqrt ak
        ⟨[.flt etaSh etaD, .i64 s, .flt wSh wD, .flt gSh gD, .flt m1Sh m1D,
          .flt m2Sh m2D, .flt f16Sh f16D, .b false], oc⟩ =
      .ok ([.flt wSh wD, .flt m1Sh m1D, .flt m2Sh m2D, .i64 s] ++
        (if 5 ≤ oc then [.flt f16Sh f16D] else []))) ∧
    (wSh = gSh → wSh = m1Sh → wSh = m2Sh →
      LambOptimizer.ComputeInternal sqrt lk
        ⟨[.flt etaSh etaD, .flt wSh wD, .flt gSh gD, .flt m1Sh m1D,
          .flt m2Sh m2D, .flt f16Sh f16D, .b false], oc2⟩ =
      .ok ([.flt wSh wD, .flt wSh m1D, .flt wSh m2D] ++
        (if 4 ≤ oc2 then [.flt f16Sh f16D] else []))) := by
  constructor
  · by_cases h5 : 5 ≤ oc <;>
      simp [AdamOptimizer.ComputeInternal, OpKernelContext.inputFlt,
        OpKernelContext.inputI64, OpKernelContext.inputBool, h5,
        exceptBind_ok, exceptPure]
  · intro hg hm1 hm2
    subst hg
    subst hm1
    subst hm2
    by_cases h4 : 4 ≤ oc2 <;>
      simp [LambOptimizer.ComputeInternal, OpKernelContext.inputFlt,
        OpKernelContext.inputBool, h4, exceptBind_ok, exceptPure]

/-- Witness for C1 at concrete rational inputs (sqrt taken constantly zero;
the skip path never evaluates it). -/
theorem C1_skip_update_identity_witness :
    (AdamOptimizer.ComputeInternal (K := Rat) (fun _ => 0) ⟨0.9, 0.999, 0, 1e-8⟩
        ⟨[.flt [] [0.5], .i64 3, .flt [3] [1, 2, 3], .flt [3] [4, 5, 6],
          .flt [3] [0.1, 0.2, 0.3], .flt [3] [0.4, 0.5, 0.6],
          .flt [3] [1, 2, 3], .b false], 5⟩ =
      .ok ([.flt [3] [1, 2, 3], .flt [3] [0.1, 0.2, 0.3], .flt [3] [0.4, 0.5, 0.6],
        .i64 3] ++ (if 5 ≤ 5 then [.flt [3] [1, 2, 3]] else []))) ∧
    (LambOptimizer.ComputeInternal (K := Rat) (fun _ => 0) ⟨0.9, 0.999, 0, 1e-6, 1⟩
        ⟨[.flt [] [0.5], .flt [3] [1, 2, 3], .flt [3] [4, 5, 6],
          .flt [3] [0.1, 0.2, 0.3], .flt [3] [0.4, 0.5, 0.6],
          .flt [3] [1, 2, 3], .b false], 4⟩ =
      .ok ([.flt [3] [1, 2, 3], .flt [3] [0.1, 0.2, 0.3], .flt [3] [0.4, 0.5, 0.6]] ++
        (if 4 ≤ 4 then [.flt [3] [1, 2, 3]] else []))) :=
  ⟨(C1_skip_update_identity (fun _ => 0) ⟨0.9, 0.999, 0, 1e-8⟩ ⟨0.9, 0.999, 0, 1e-6, 1⟩
      [] [3] [3] [3] [3] [3] [0.5] [1, 2, 3] [4, 5, 6] [0.1, 0.2, 0.3]
      [0.4, 0.5, 0.6] [1, 2, 3] 3 5 4).1,
   (C1_skip_update_identity (fun _ => 0) ⟨0.9, 0.999, 0, 1e-8⟩ ⟨0.9, 0.999, 0, 1e-6, 1⟩
      [] [3] [3] [3] [3] [3] [0.5] [1, 2, 3] [4, 5, 6] [0.1, 0.2, 0.3]
      [0.4, 0.5, 0.6] [1, 2, 3] 3 5 4).2 rfl rfl rfl⟩

/-- C5 counterexample: an Adam node whose gradient has shape [2] while the
weight has shape [3] is not rejected anywhere — AdamOptimizer's
ComputeInternal contains no shape check and there is no earlier
graph-construction check, so the node executes successfully on mismatched
shapes instead of failing at build time as the claim states. -/
theorem C5_adam_shape_mismatch_not_detected :
    (AdamOptimizer.ComputeInternal (K := Rat) (fun _ => 0) ⟨0.9, 0.999, 0, 1e-8⟩
      ⟨[.flt [] [0.5], .i64 3, .flt [3] [1, 2, 3], .flt [2] [4, 5],
        .flt [3] [0.1, 0.2, 0.3], .flt [3] [0.4, 0.5, 0.6]], 4⟩).isOk = true := by
  rfl

/-- C5 amended: a weight/gradient shape mismatch is detected and reported
as a fatal error by the SGD and Lamb optimizer kernels via ORT_ENFORCE
inside ComputeInternal, i.e. when the optimizer node executes, not by a
static build-time check; the Adam kernel performs no such check at all. -/
theorem C5_shape_mismatch_execution_error (sqrt : K → K) (lk : LambKernel K)
    (etaSh wSh gSh m1Sh m2Sh : List Nat) (etaD wD gD m1D m2D : List K)
    (oc oc2 : Nat) (hne : wSh ≠ gSh) :
    SGDOptimizer.ComputeInternal
        ⟨[.flt etaSh etaD, .flt wSh wD, .flt gSh gD], oc⟩ =
      .error "SGDOptimizer: W and G shapes differ" ∧
    LambOptimizer.ComputeInternal sqrt lk
        ⟨[.flt etaSh etaD, .flt wSh wD, .flt gSh gD, .flt m1Sh m1D,
          .flt m2Sh m2D], oc2⟩ =
      .error "LambOptimizer: W and G shapes differ" := by
  constructor
  · simp [SGDOptimizer.ComputeInternal, OpKernelContext.inputFlt, hne,
      exceptBind_ok, exceptBind_error, exceptPure, exceptThrow]
  · simp [LambOptimizer.ComputeInternal, OpKernelContext.inputFlt, hne,
      exceptBind_ok, exceptBind_error, exceptPure, exceptThrow]

/-- Witness for C5 amended, at shapes [3] versus [2]. -/
theorem C5_shape_mismatch_execution_error_witness :
    SGDOptimizer.ComputeInternal (K := Rat)
        ⟨[.flt [] [0.5], .flt [3] [1, 2, 3], .flt [2] [4, 5]], 1⟩ =
      .error "SGDOptimizer: W and G shapes differ" ∧
    LambOptimizer.ComputeInternal (K := Rat) (fun _ => 0) ⟨0.9, 0.999, 0, 1e-6, 1⟩
        ⟨[.flt [] [0.5], .flt [3] [1, 2, 3], .flt [2] [4, 5],
          .flt [3] [0, 0, 0], .flt [3] [0, 0, 0]], 3⟩ =
      .error "LambOptimizer: W and G shapes differ" :=
  C5_shape_mismatch_execution_error (fun _ => 0) ⟨0.9, 0.999, 0, 1e-6, 1⟩
    [] [3] [2] [3] [3] [0.5] [1, 2, 3] [4, 5] [0, 0, 0] [0, 0, 0] 1 3 (by decide)

/-- C8: the SGD update computes W' = W - eta * G elementwise (first
conjunct, over any field and any inputs with matching weight and gradient
shapes), and at eta = 0.5, W = [1,2,3], G = [4,5,6] it returns
[-1, -1/2, 0] (second conjunct, over the rationals). -/
theorem C8_sgd_update (etaSh wSh : List Nat) (etaD wD gD : List K) (oc : Nat) :
    (SGDOptimizer.ComputeInternal
        ⟨[.flt etaSh etaD, .flt wSh wD, .flt wSh gD], oc⟩ =
      .ok [.flt wSh ((List.range (shapeSize wSh)).map (fun i =>
        wD.getD i 0 - etaD.headD 0 * gD.getD i 0))]) ∧
    (SGDOptimizer.ComputeInternal (K := Rat)
        ⟨[.flt [] [0.5], .flt [3] [1, 2, 3], .flt [3] [4, 5, 6]], 1⟩ =
      .ok [.flt [3] [-1, -0.5, 0]]) := by
  constructor
  · simp [SGDOptimizer.ComputeInternal, OpKernelContext.inputFlt,
      SGDOptimizerImpl, exceptBind_ok, exceptPure]
  · norm_num [SGDOptimizer.ComputeInternal, OpKernelContext.inputFlt,
      SGDOptimizerImpl, exceptBind_ok, exceptPure, shapeSize, List.range_succ]

theorem listSetPad_eq_append (xs : List FormalParameter) (n : Nat) (p : FormalParameter)
    (h : xs.length = n) : listSetPad xs n p = xs ++ [p] := by
  subst h
  unfold listSetPad
  have h1 : xs.length + 1 - xs.length = 1 := by omega
  rw [h1]
  induction xs with
  | nil => rfl
  | cons a t ih => simp [ih]

theorem foldl_SetInput_range (f : Nat → FormalParameter) :
    ∀ (mx : Nat) (s : OpSchema), s.inputs = [] →
      (List.range mx).foldl (fun t i => t.SetInput i (f i)) s =
        { s with inputs := (List.range mx).map f } := by
  intro mx
  induction mx with
  | zero =>
    intro s hs
    cases s
    simp_all
  | succ n ih =>
    intro s hs
    rw [List.range_succ, List.foldl_append, ih s hs]
    simp only [List.foldl_cons, List.foldl_nil, List.map_append, List.map_cons,
      List.map_nil]
    simp only [OpSchema.SetInput]
    rw [listSetPad_eq_append _ _ _ (by simp)]

theorem foldl_SetOutput_range (f : Nat → FormalParameter) :
    ∀ (mx : Nat) (s : OpSchema), s.outputs = [] →
      (List.range mx).foldl (fun t i => t.SetOutput i (f i)) s =
        { s with outputs := (List.range mx).map f } := by
  intro mx
  induction mx with
  | zero =>
    intro s hs
    cases s
    simp_all
  | succ n ih =>
    intro s hs
    rw [List.range_succ, List.foldl_append, ih s hs]
    simp only [List.foldl_cons, List.foldl_nil, List.map_append, List.map_cons,
      List.map_nil]
    simp only [OpSchema.SetOutput]
    rw [listSetPad_eq_append _ _ _ (by simp)]

/-- The type constraint the claim assigns to the derived gradient schema:
the forward schema constraint when the forward schema exists and has
exactly one constraint parameter, otherwise V over all tensor types. -/
def gradTypeConstraintSpec (base_op : Option OpSchema) : TypeConstraintParam :=
  match base_op with
  | some b =>
    if b.typeConstraintParams.length = 1 then b.typeConstraintParams.getD 0 default
    else ⟨"V", allTensorTypes, "All Tensor types"⟩
  | none => ⟨"V", allTensorTypes, "All Tensor types"⟩

/-- The generic slot list the claim describes: slot i named by the given
base name followed by i, all slots Optional except the last one, which is
Variadic exactly when the variadic flag is set. -/
def gradSlotsSpec (baseName : String) (mx : Nat) (variadic : Bool) (tstr : String) :
    List FormalParameter :=
  (List.range mx).map (fun i =>
    ⟨baseName ++ toString i, "", tstr,
     if i + 1 = mx ∧ variadic then .Variadic else .Optional, true⟩)

theorem gradSlots_code_eq_spec (nm : String) (mxI : Int) (variadic : Bool) (tstr : String) :
    (List.range mxI.toNat).map (fun (i : Nat) =>
      (⟨nm ++ toString i, "", tstr,
        GradOpSchema.GetParameterType (i : Int) mxI variadic, true⟩ : FormalParameter)) =
    gradSlotsSpec nm mxI.toNat variadic tstr := by
  unfold gradSlotsSpec
  apply List.map_congr_left
  intro i hmem
  simp only [List.mem_range] at hmem
  have hiff : ((i : Int) = mxI - 1) ↔ (i + 1 = mxI.toNat) := by omega
  simp [GradOpSchema.GetParameterType, hiff]

/-- C6: on a fresh gradient schema, GenGradientSchema succeeds and produces
exactly: the forward type constraint when the referenced forward schema
exists with exactly one constraint parameter, otherwise V over all tensor
types; generic inputs grad_input_arg{i} and outputs grad_output_arg{i} for
every index below the declared max arity, typed by that constraint, with
the last slot Variadic exactly when the corresponding variadic flag is set
and all other slots Optional; plus the forward attributes appended. -/
theorem C6_gen_gradient_schema (g : GradOpSchema) (base_op : Option OpSchema)
    (grad : OpSchema) (hc : grad.typeConstraintParams = [])
    (hi : grad.inputs = []) (ho : grad.outputs = []) :
    g.GenGradientSchema base_op grad =
      .ok { grad with
        typeConstraintParams := [gradTypeConstraintSpec base_op],
        inputs := gradSlotsSpec "grad_input_arg" g.max_input.toNat
          g.variadic_input (gradTypeConstraintSpec base_op).type_param_str,
        outputs := gradSlotsSpec "grad_output_arg" g.max_output.toNat
          g.variadic_output (gradTypeConstraintSpec base_op).type_param_str,
        attributes := grad.attributes ++
          (match base_op with | some b => b.attributes | none => []) } := by
  have hTC : (match base_op with
      | some b =>
        if b.typeConstraintParams.length = 1 then
          let tc := b.typeConstraintParams.getD 0 default
          grad.TypeConstraint tc.type_param_str tc.allowed_type_strs tc.description
        else
          grad.TypeConstraint "V" allTensorTypes "All Tensor types"
      | none => grad.TypeConstraint "V" allTensorTypes "All Tensor types") =
      { grad with typeConstraintParams := [gradTypeConstraintSpec base_op] } := by
    cases base_op with
    | none =>
      simp [gradTypeConstraintSpec, OpSchema.TypeConstraint, hc]
    | some b =>
      by_cases hb : b.typeConstraintParams.length = 1 <;>
        simp [gradTypeConstraintSpec, OpSchema.TypeConstraint, hc, hb]
  unfold GradOpSchema.GenGradientSchema
  rw [hTC]
  simp only [hi, ho, List.isEmpty_nil, List.getD_cons_zero,
    foldl_SetInput_range, foldl_SetOutput_range]
  rw [if_neg (by decide), if_neg (by decide)]
  rw [gradSlots_code_eq_spec, gradSlots_code_eq_spec]
  cases base_op with
  | none => simp [CopyAttributes]
  | some b => simp [CopyAttributes]

/-- A forward schema with exactly one type constraint parameter and one
attribute, used to instantiate the schema-derivation scenario. -/
def fwSchema : OpSchema :=
  ⟨"Exp", [⟨"T", ["tensor(float)", "tensor(double)"], "floating point tensors"⟩],
   [], [], [⟨"alpha"⟩], none, none⟩

/-- A fresh gradient schema with nothing declared yet. -/
def freshGradSchema : OpSchema := ⟨"ExpGrad", [], [], [], [], none, none⟩

/-- A builder declaring up to three variadic inputs and one output. -/
def gradTestBuilder : GradOpSchema := ⟨freshGradSchema, 1, 3, 1, 1, true, false⟩

/-- Witness for C6 on a concrete forward schema with one type constraint. -/
theorem C6_gen_gradient_schema_witness :
    gradTestBuilder.GenGradientSchema (some fwSchema) freshGradSchema =
      .ok { freshGradSchema with
        typeConstraintParams := [gradTypeConstraintSpec (some fwSchema)],
        inputs := gradSlotsSpec "grad_input_arg" gradTestBuilder.max_input.toNat
          gradTestBuilder.variadic_input
          (gradTypeConstraintSpec (some fwSchema)).type_param_str,
        outputs := gradSlotsSpec "grad_output_arg" gradTestBuilder.max_output.toNat
          gradTestBuilder.variadic_output
          (gradTypeConstraintSpec (some fwSchema)).type_param_str,
        attributes := freshGradSchema.attributes ++ fwSchema.attributes } :=
  C6_gen_gradient_schema gradTestBuilder (some fwSchema) freshGradSchema rfl rfl rfl

theorem adam_w_concrete_bound (w c e A lo hi tgt : ℝ)
    (hc : 0 < c) (hlo : 0 < lo) (h1 : lo ^ 2 < A) (h2 : A < hi ^ 2)
    (hhi : 0 < hi) (he : 0 < e)
    (hb1 : tgt - 1e-5 < w - c / (lo + e))
    (hb2 : w - c / (hi + e) < tgt + 1e-5) :
    |w - c / (Real.sqrt A + e) - tgt| < 1e-5 := by
  have hs1 : lo < Real.sqrt A := (Real.lt_sqrt hlo.le).2 h1
  have hs2 : Real.sqrt A < hi := (Real.sqrt_lt' hhi).2 h2
  have hd1 : c / (Real.sqrt A + e) < c / (lo + e) :=
    div_lt_div_of_pos_left hc (by linarith) (by linarith)
  have hd2 : c / (hi + e) < c / (Real.sqrt A + e) :=
    div_lt_div_of_pos_left hc (by linarith) (by linarith)
  rw [abs_lt]
  constructor <;> linarith

/-- C3: an executed Adam update (no skip) writes, elementwise,
M1' = alpha * M1 + (1 - alpha) * G and M2' = beta * M2 + (1 - beta) * G * G
and increments the step counter by exactly one (first conjunct, over any
field, any sqrt and arbitrary inputs); on the spec concrete scenario
(eta 0.5, step 3, W [1,2,3], G [4,5,6], M1 [0.1,0.2,0.3], M2 [0.4,0.5,0.6],
alpha 0.9, beta 0.999, lambda 0, epsilon 1e-6) it yields exactly the
claimed M1', M2' and step 4, and new weights within 1e-5 of the claimed
values, over the reals with the genuine square root (second conjunct). -/
theorem C3_adam_update (sqrt : K → K) (kern : AdamKernel K)
    (etaSh wSh gSh m1Sh m2Sh : List Nat) (etaD wD gD m1D m2D : List K)
    (s : Int) (oc : Nat) :
    (AdamOptimizer.ComputeInternal sqrt kern
        ⟨[.flt etaSh etaD, .i64 s, .flt wSh wD, .flt gSh gD,
          .flt m1Sh m1D, .flt m2Sh m2D], oc⟩ =
      .ok [
        .flt wSh ((List.range (shapeSize wSh)).map (fun i =>
          adamWElem sqrt (etaD.headD 0) s (wD.getD i 0) (gD.getD i 0)
            (m1D.getD i 0) (m2D.getD i 0) kern.alpha kern.beta kern.epsilon)),
        .flt m1Sh ((List.range (shapeSize wSh)).map (fun i =>
          kern.alpha * m1D.getD i 0 + (1 - kern.alpha) * gD.getD i 0)),
        .flt m2Sh ((List.range (shapeSize wSh)).map (fun i =>
          kern.beta * m2D.getD i 0 + (1 - kern.beta) * gD.getD i 0 * gD.getD i 0)),
        .i64 (s + 1)]) ∧
    (∃ w0 w1 w2 : ℝ,
      AdamOptimizer.ComputeInternal Real.sqrt ⟨0.9, 0.999, 0, 1e-6⟩
          ⟨[.flt [] [0.5], .i64 3, .flt [3] [1, 2, 3], .flt [3] [4, 5, 6],
            .flt [3] [0.1, 0.2, 0.3], .flt [3] [0.4, 0.5, 0.6]], 4⟩ =
        .ok [.flt [3] [w0, w1, w2], .flt [3] [0.49, 0.68, 0.87],
             .flt [3] [0.4156, 0.5245, 0.6354], .i64 4] ∧
      |w0 - 0.9232284| < 1e-5 ∧ |w1 - 1.9051629| < 1e-5 ∧
      |w2 - 2.8897603| < 1e-5) := by
  constructor
  · simp [AdamOptimizer.ComputeInternal, OpKernelContext.inputFlt,
      OpKernelContext.inputI64, exceptBind_ok, exceptPure, adamM1Elem, adamM2Elem]
  · refine ⟨adamWElem Real.sqrt 0.5 3 1 4 0.1 0.4 0.9 0.999 1e-6,
      adamWElem Real.sqrt 0.5 3 2 5 0.2 0.5 0.9 0.999 1e-6,
      adamWElem Real.sqrt 0.5 3 3 6 0.3 0.6 0.9 0.999 1e-6, ?_, ?_, ?_, ?_⟩
    · norm_num [AdamOptimizer.ComputeInternal, OpKernelContext.inputFlt,
        OpKernelContext.inputI64, exceptBind_ok, exceptPure, adamM1Elem, adamM2Elem,
        shapeSize, List.range_succ]
    · simp only [adamWElem, adamM1Elem, adamM2Elem]
      exact adam_w_concrete_bound _ _ _ _ 11.7759 11.776 _ (by norm_num)
        (by norm_num) (by norm_num) (by norm_num) (by norm_num) (by norm_num)
        (by norm_num) (by norm_num)
    · simp only [adamWElem, adamM1Elem, adamM2Elem]
      exact adam_w_concrete_bound _ _ _ _ 13.229 13.2291 _ (by norm_num)
        (by norm_num) (by norm_num) (by norm_num) (by norm_num) (by norm_num)
        (by norm_num) (by norm_num)
    · simp only [adamWElem, adamM1Elem, adamM2Elem]
      exact adam_w_concrete_bound _ _ _ _ 14.5606 14.5607 _ (by norm_num)
        (by norm_num) (by norm_num) (by norm_num) (by norm_num) (by norm_num)
        (by norm_num) (by norm_num)

end ORT
